import Mathlib

/-!
# Verification of the pharmacy pricing calculator

Shallow embedding of `calcular_precios_farmacia_detallado` and the
validation wrapper `calcular_precios_detallado` from
`src/backend/server.py`, over exact rational arithmetic (`ℚ`).
Python float values are modelled as the exact rationals their decimal
literals denote; display rounding (`round(x, 2)`) is modelled by
round-half-to-even on hundredths.  A Python `ZeroDivisionError` that
escapes the function is modelled by `Option.none`; the one caught by the
`try/except` around scale parsing is folded into the parse result.
-/

namespace PharmaPricing

/-- Split a character list at every occurrence of `sep`, with the
semantics of Python's `str.split(sep)`: `"a+b"` gives `["a", "b"]`,
`""` gives `[""]`, `"+"` gives `["", ""]`. -/
def splitOnChar (sep : Char) : List Char → List (List Char)
  | [] => [[]]
  | c :: rest =>
      match splitOnChar sep rest, decide (c = sep) with
      | r, true => [] :: r
      | h :: t, false => (c :: h) :: t
      | [], false => [[c]]

/-- Numeric value of a list of decimal digit characters (most significant
first), as used when reading the parts of a float literal. -/
def natOfDigits (l : List Char) : ℕ :=
  l.foldl (fun a c => 10 * a + (c.toNat - 48)) 0

/-- Parse the mantissa of a float literal: digits with an optional single
decimal point, at least one digit overall (`"1"`, `"1."`, `".5"`; not `"."`
nor `""`). -/
def parseMantissa (l : List Char) : Option ℚ :=
  match splitOnChar '.' l with
  | [ip] =>
      if ip ≠ [] ∧ ip.all Char.isDigit then some (natOfDigits ip) else none
  | [ip, fp] =>
      if (ip ≠ [] ∨ fp ≠ []) ∧ ip.all Char.isDigit ∧ fp.all Char.isDigit then
        some ((natOfDigits ip : ℚ) + (natOfDigits fp : ℚ) / 10 ^ fp.length)
      else none
  | _ => none

/-- Parse an optionally signed non-empty run of digits (the exponent part
of a float literal). -/
def parseSignedNat (l : List Char) : Option ℤ :=
  match l with
  | '-' :: r => if r ≠ [] ∧ r.all Char.isDigit then some (-(natOfDigits r : ℤ)) else none
  | '+' :: r => if r ≠ [] ∧ r.all Char.isDigit then some (natOfDigits r : ℤ) else none
  | r => if r ≠ [] ∧ r.all Char.isDigit then some (natOfDigits r : ℤ) else none

/-- Scale a rational by a power of ten with integer exponent. -/
def scalePow10 (q : ℚ) (e : ℤ) : ℚ :=
  if 0 ≤ e then q * 10 ^ e.toNat else q / 10 ^ (-e).toNat

/-- Model of Python's builtin `float(str)` on finite decimal literals:
optional sign, digits with optional decimal point, optional `e`/`E`
exponent with optional sign.  (`inf`, `nan`, surrounding whitespace and
digit-group underscores, which `float` also accepts, are outside the
modelled grammar.)  `none` models `float` raising `ValueError`. -/
def parseFloat (s : String) : Option ℚ :=
  let l := s.toList.map Char.toLower
  let (neg, body) :=
    match l with
    | '-' :: r => (true, r)
    | '+' :: r => (false, r)
    | r => (false, r)
  let mag : Option ℚ :=
    match splitOnChar 'e' body with
    | [m] => parseMantissa m
    | [m, e] =>
        match parseMantissa m, parseSignedNat e with
        | some q, some ex => some (scalePow10 q ex)
        | _, _ => none
    | _ => none
  mag.map fun q => if neg then -q else q

/-- Scale parsing of `calcular_precios_farmacia_detallado`, step 2 of the
source: the promotion string is used only when it is non-empty, differs
from the sentinel `"sin_escala"`, contains `'+'`, splits on `'+'` into
exactly two parts, and both parts parse as floats.  The result is
`(compra, recibe)` with `recibe = compra + bonus`.  The source computes
`costo_real = costo_con_impuesto * compra / recibe` inside a
`try/except`; when `recibe = 0` that division raises and the handler
falls back to "no scale", so that case is folded into `none` here. -/
def parseEscala (s : String) : Option (ℚ × ℚ) :=
  if s != "" && s != "sin_escala" && s.toList.contains '+' then
    match splitOnChar '+' s.toList with
    | [p1, p2] =>
        match parseFloat (String.mk p1), parseFloat (String.mk p2) with
        | some compra, some bonus =>
            if compra + bonus ≠ 0 then some (compra, compra + bonus) else none
        | _, _ => none
    | _ => none
  else none

/-- The local (unrounded) quantities computed in the body of
`calcular_precios_farmacia_detallado` before the rounded result dict is
assembled. -/
structure RawPrecios where
  costo_con_impuesto : ℚ
  costo_real : ℚ
  unidades_pagadas : ℚ
  unidades_recibidas : ℚ
  precio_base : ℚ
  precio_publico : ℚ
  precio_final_cliente : ℚ
  margen_final : ℚ
  utilidad_por_unidad : ℚ
  porcentaje_markup : ℚ
  deriving DecidableEq, Repr

/-- Steps 3–6 of `calcular_precios_farmacia_detallado`, starting from the
already-parsed scale (`p = parseEscala escala_compra`).  The three
`none` exits model the unguarded `ZeroDivisionError`s: the
`precio_publico` division when `descuento > 0` and its denominator is
zero, the `margen_final` division when `precio_final_cliente = 0`, and
the `porcentaje_markup` division when `costo_real = 0`. -/
def calcularRawCore (costo_unitario impuesto : ℚ) (p : Option (ℚ × ℚ))
    (descuento : ℚ) : Option RawPrecios :=
  let costo_con_impuesto := costo_unitario * (1 + impuesto / 100)
  let costo_real :=
    match p with
    | some (compra, recibe) => costo_con_impuesto * compra / recibe
    | none => costo_con_impuesto
  let unidades_pagadas := match p with | some (compra, _) => compra | none => 1
  let unidades_recibidas := match p with | some (_, recibe) => recibe | none => 1
  let precio_base := costo_real / (1 - 0.25)
  if descuento > 0 ∧ (1 - 0.25) * (1 - descuento / 100) = 0 then none
  else
    let precio_publico :=
      if descuento > 0 then costo_real / ((1 - 0.25) * (1 - descuento / 100))
      else precio_base
    let precio_final_cliente := precio_publico * (1 - descuento / 100)
    if precio_final_cliente = 0 then none
    else
      let margen_final := (precio_final_cliente - costo_real) / precio_final_cliente * 100
      let utilidad_por_unidad := precio_final_cliente - costo_real
      if costo_real = 0 then none
      else
        some { costo_con_impuesto, costo_real, unidades_pagadas, unidades_recibidas,
               precio_base, precio_publico, precio_final_cliente, margen_final,
               utilidad_por_unidad,
               porcentaje_markup := (precio_final_cliente - costo_real) / costo_real * 100 }

/-- The unrounded computation of `calcular_precios_farmacia_detallado`:
scale parsing followed by the pricing steps. -/
def calcularRaw (costo_unitario impuesto : ℚ) (escala_compra : String)
    (descuento : ℚ) : Option RawPrecios :=
  calcularRawCore costo_unitario impuesto (parseEscala escala_compra) descuento

/-- Round-half-to-even to an integer, as Python's `round` does. -/
def roundHalfEven (q : ℚ) : ℤ :=
  let f := ⌊q⌋
  if q - f < 1 / 2 then f
  else if q - f > 1 / 2 then f + 1
  else if f % 2 = 0 then f else f + 1

/-- Python's `round(x, 2)`: round to hundredths, ties to even. -/
def round2 (q : ℚ) : ℚ := (roundHalfEven (q * 100) : ℚ) / 100

/-- The dict returned by `calcular_precios_farmacia_detallado` (the two
display-only message strings `descripcion_escala` and
`mensaje_verificacion` are not modelled). -/
structure Resultado where
  costo_unitario_original : ℚ
  impuesto_aplicado : ℚ
  costo_con_impuesto : ℚ
  escala_aplicada : String
  unidades_pagadas : ℚ
  unidades_recibidas : ℚ
  costo_real : ℚ
  precio_base : ℚ
  precio_publico : ℚ
  descuento_aplicado : ℚ
  precio_final_cliente : ℚ
  margen_utilidad_final : ℚ
  utilidad_por_unidad : ℚ
  porcentaje_markup : ℚ
  margen_garantizado : Bool
  deriving DecidableEq, Repr

/-- `calcular_precios_farmacia_detallado` from `src/backend/server.py`:
the unrounded computation, then the returned dict with monetary fields
rounded to 2 decimals; `margen_garantizado` compares the *unrounded*
final margin against `24.5`.  `none` models an uncaught
`ZeroDivisionError`. -/
def calcular_precios_farmacia_detallado (costo_unitario impuesto : ℚ)
    (escala_compra : String) (descuento : ℚ) : Option Resultado :=
  (calcularRaw costo_unitario impuesto escala_compra descuento).map fun r =>
    { costo_unitario_original := round2 costo_unitario
      impuesto_aplicado := impuesto
      costo_con_impuesto := round2 r.costo_con_impuesto
      escala_aplicada := escala_compra
      unidades_pagadas := r.unidades_pagadas
      unidades_recibidas := r.unidades_recibidas
      costo_real := round2 r.costo_real
      precio_base := round2 r.precio_base
      precio_publico := round2 r.precio_publico
      descuento_aplicado := descuento
      precio_final_cliente := round2 r.precio_final_cliente
      margen_utilidad_final := round2 r.margen_final
      utilidad_por_unidad := round2 r.utilidad_por_unidad
      porcentaje_markup := round2 r.porcentaje_markup
      margen_garantizado := decide (r.margen_final ≥ (24.5 : ℚ)) }

/-- Outcome of a call to the HTTP endpoint: `invalidInput` is the
`HTTPException(400, detail)` raised by validation, `ok (some r)` a
normal response, and `ok none` an uncaught exception escaping the
computation (HTTP 500). -/
inductive ApiResult where
  | invalidInput (detail : String)
  | ok (res : Option Resultado)
  deriving DecidableEq, Repr

/-- The HTTP endpoint `calcular_precios_detallado`: input validation
before the pricing computation. -/
def calcular_precios_detallado (costo_unitario impuesto : ℚ)
    (escala_compra : String) (descuento : ℚ) : ApiResult :=
  if costo_unitario ≤ 0 then ApiResult.invalidInput "El costo unitario debe ser mayor a 0"
  else if descuento < 0 ∨ descuento > 100 then
    ApiResult.invalidInput "El descuento debe estar entre 0 y 100"
  else if impuesto < 0 ∨ impuesto > 100 then
    ApiResult.invalidInput "El impuesto debe estar entre 0 y 100"
  else ApiResult.ok (calcular_precios_farmacia_detallado costo_unitario impuesto
    escala_compra descuento)

/-- The real unit cost as determined by the (already parsed) scale:
`costo_con_impuesto * compra / recibe` under a promotion, the taxed cost
otherwise.  Abbreviation used to state lemmas about `calcularRawCore`. -/
def costoRealOf (cu imp : ℚ) (p : Option (ℚ × ℚ)) : ℚ :=
  match p with
  | some (c, re) => cu * (1 + imp / 100) * c / re
  | none => cu * (1 + imp / 100)

/-- The five price quantities of spec §4.1. -/
structure SpecPrices where
  cost_with_tax : ℚ
  real_unit_cost : ℚ
  base_price : ℚ
  public_price : ℚ
  final_client_price : ℚ

/-- The pricing algorithm exactly as §4.1 of the spec words it (steps
1–5), with an explicit `margin_target` and the promotion given as
`(buy, bonus)`.  Used only to compare against the embedding of the
source in the refinement claim. -/
def compute_pricing_spec (unit_cost tax_percent : ℚ) (promo : Option (ℚ × ℚ))
    (discount_percent margin_target : ℚ) : SpecPrices :=
  let cost_with_tax := unit_cost * (1 + tax_percent / 100)
  let real_unit_cost :=
    match promo with
    | some (buy, bonus) => cost_with_tax * buy / (buy + bonus)
    | none => cost_with_tax
  let base_price := real_unit_cost / (1 - margin_target)
  let public_price :=
    if discount_percent > 0 then
      real_unit_cost / ((1 - margin_target) * (1 - discount_percent / 100))
    else base_price
  { cost_with_tax, real_unit_cost, base_price, public_price,
    final_client_price := public_price * (1 - discount_percent / 100) }

/-! ## Helper lemmas -/

theorem round2_eq_of_lt {q : ℚ} {n : ℤ} (hf : ⌊q * 100⌋ = n)
    (hlt : q * 100 - n < 1 / 2) : round2 q = n / 100 := by
  rw [round2, roundHalfEven, hf, if_pos hlt]

theorem round2_eq_of_gt {q : ℚ} {n : ℤ} (hf : ⌊q * 100⌋ = n)
    (hgt : 1 / 2 < q * 100 - n) : round2 q = (n + 1) / 100 := by
  rw [round2, roundHalfEven, hf, if_neg (not_lt.mpr hgt.le), if_pos hgt]
  push_cast
  ring

/-- Inversion for `calcularRawCore`: whenever it returns a result, every
field of the result is the closed-form value and the three divisions
were well defined. -/
theorem calcularRawCore_inv {cu imp desc : ℚ} {p : Option (ℚ × ℚ)} {r : RawPrecios}
    (h : calcularRawCore cu imp p desc = some r) :
    r.costo_con_impuesto = cu * (1 + imp / 100) ∧
    r.costo_real = costoRealOf cu imp p ∧
    r.unidades_pagadas = (p.getD (1, 1)).1 ∧
    r.unidades_recibidas = (p.getD (1, 1)).2 ∧
    r.precio_base = costoRealOf cu imp p / (1 - 0.25) ∧
    r.precio_publico = (if desc > 0 then
      costoRealOf cu imp p / ((1 - 0.25) * (1 - desc / 100))
      else costoRealOf cu imp p / (1 - 0.25)) ∧
    r.precio_final_cliente = r.precio_publico * (1 - desc / 100) ∧
    r.margen_final = (r.precio_final_cliente - r.costo_real) / r.precio_final_cliente * 100 ∧
    r.utilidad_por_unidad = r.precio_final_cliente - r.costo_real ∧
    r.porcentaje_markup = (r.precio_final_cliente - r.costo_real) / r.costo_real * 100 ∧
    r.costo_real ≠ 0 ∧ r.precio_final_cliente ≠ 0 ∧
    ¬(desc > 0 ∧ (1 - 0.25) * (1 - desc / 100) = 0) := by
  obtain _ | ⟨c, re⟩ := p <;>
  · simp only [calcularRawCore, costoRealOf, Option.getD] at h ⊢
    split_ifs at h with h1 h2 h3 h4 h5 h6
    all_goals injection h with h
    all_goals subst h
    · exact ⟨rfl, rfl, rfl, rfl, rfl, by rw [if_pos h2], rfl, rfl, rfl, rfl, h4, h3, h1⟩
    · exact ⟨rfl, rfl, rfl, rfl, rfl, by rw [if_neg h2], rfl, rfl, rfl, rfl, h6, h5, h1⟩

/-- Success: `calcularRawCore` returns a result whenever the discount is
in `[0, 100)` and the real unit cost is nonzero. -/
theorem calcularRawCore_isSome {cu imp desc : ℚ} {p : Option (ℚ × ℚ)}
    (hd0 : 0 ≤ desc) (hd1 : desc < 100) (hcr : costoRealOf cu imp p ≠ 0) :
    ∃ r, calcularRawCore cu imp p desc = some r := by
  have hk : (0 : ℚ) < 1 - desc / 100 := by linarith
  have h34 : (1 : ℚ) - 0.25 ≠ 0 := by norm_num
  have hden : ((1 : ℚ) - 0.25) * (1 - desc / 100) ≠ 0 := mul_ne_zero h34 hk.ne'
  obtain _ | ⟨c, re⟩ := p <;>
  · simp only [calcularRawCore, costoRealOf] at hcr ⊢
    rw [if_neg (by rintro ⟨-, habs⟩; exact hden habs)]
    split_ifs with h2 h3 h4
    · exfalso
      rcases mul_eq_zero.mp h3 with hz | hz
      · rcases div_eq_zero_iff.mp hz with hz2 | hz2
        · exact hcr hz2
        · exact hden hz2
      · exact hk.ne' hz
    · exact ⟨_, rfl⟩
    · exfalso
      rcases mul_eq_zero.mp h4 with hz | hz
      · rcases div_eq_zero_iff.mp hz with hz2 | hz2
        · exact hcr hz2
        · exact h34 hz2
      · exact hk.ne' hz
    · exact ⟨_, rfl⟩

/-- Whenever the computation returns at all and the discount is
non-negative, the exact (unrounded) final margin is exactly 25%: the
public price is constructed so that the discount cancels. -/
theorem margen_final_eq_25 {cu imp desc : ℚ} {p : Option (ℚ × ℚ)} {r : RawPrecios}
    (hd0 : 0 ≤ desc) (h : calcularRawCore cu imp p desc = some r) :
    r.margen_final = 25 := by
  obtain ⟨-, hcr, -, -, -, hpp, hpf, hmf, -, -, hcr0, hpf0, hguard⟩ := calcularRawCore_inv h
  rw [hmf, hpf, hpp, hcr]
  rw [hcr] at hcr0
  set x := costoRealOf cu imp p with hxdef
  by_cases hd : desc > 0
  · have hk : (1 : ℚ) - desc / 100 ≠ 0 := by
      intro h0
      exact hguard ⟨hd, by rw [h0, mul_zero]⟩
    rw [if_pos hd]
    have h1 : ∀ y k : ℚ, k ≠ 0 → y / ((1 - 0.25) * k) * k = y / (1 - 0.25) := by
      intro y k hk0
      field_simp
      ring
    rw [h1 x _ hk]
    field_simp
    ring
  · rw [if_neg hd]
    have hdz : desc = 0 := le_antisymm (not_lt.mp hd) hd0
    subst hdz
    norm_num
    field_simp
    ring

theorem parseEscala_10_3 : parseEscala "10+3" = some (10, 13) := by
  simp [parseEscala, parseFloat, parseMantissa, splitOnChar, natOfDigits]
  norm_num

theorem parseEscala_5_1 : parseEscala "5+1" = some (5, 6) := by
  simp [parseEscala, parseFloat, parseMantissa, splitOnChar, natOfDigits]
  norm_num

theorem parseEscala_20_5 : parseEscala "20+5" = some (20, 25) := by
  simp [parseEscala, parseFloat, parseMantissa, splitOnChar, natOfDigits]
  norm_num

theorem parseEscala_sin_escala : parseEscala "sin_escala" = none := by
  simp [parseEscala]

theorem parseEscala_0_3 : parseEscala "0+3" = some (0, 3) := by
  simp [parseEscala, parseFloat, parseMantissa, splitOnChar, natOfDigits]

theorem parseEscala_neg5_10 : parseEscala "-5+10" = some (-5, 5) := by
  simp [parseEscala, parseFloat, parseMantissa, splitOnChar, natOfDigits]
  norm_num

/-- Unrounded evaluation at the spec §8 concrete scenario. -/
theorem calcularRaw_scenario : calcularRaw 100 15 "10+3" 10 = some
    { costo_con_impuesto := 115, costo_real := 1150 / 13, unidades_pagadas := 10,
      unidades_recibidas := 13, precio_base := 4600 / 39, precio_publico := 46000 / 351,
      precio_final_cliente := 4600 / 39, margen_final := 25,
      utilidad_por_unidad := 1150 / 39, porcentaje_markup := 100 / 3 } := by
  rw [calcularRaw, parseEscala_10_3]
  simp only [calcularRawCore]
  norm_num

/-- Unrounded evaluation at the spec §8 second concrete scenario
(`unit_cost=50, tax=0, no scale, no discount`). -/
theorem calcularRaw_simple : calcularRaw 50 0 "sin_escala" 0 = some
    { costo_con_impuesto := 50, costo_real := 50, unidades_pagadas := 1,
      unidades_recibidas := 1, precio_base := 200 / 3, precio_publico := 200 / 3,
      precio_final_cliente := 200 / 3, margen_final := 25,
      utilidad_por_unidad := 50 / 3, porcentaje_markup := 100 / 3 } := by
  rw [calcularRaw, parseEscala_sin_escala]
  simp only [calcularRawCore]
  norm_num

/-! ## Claims -/

/-- C9: a purchase scale of the form `"0+b"` with `b > 0` is inside the
promotion grammar and parses (it is not caught by the parse fallback),
makes the real unit cost zero, and the subsequent margin/markup
divisions raise an unguarded `ZeroDivisionError`: the function returns
no result. -/
theorem zero_buy_scale_unguarded_divzero :
    parseEscala "0+3" = some (0, 3) ∧
    costoRealOf 1 0 (some (0, 3)) = 0 ∧
    calcular_precios_farmacia_detallado 1 0 "0+3" 0 = none := by
  refine ⟨parseEscala_0_3, by simp [costoRealOf], ?_⟩
  simp only [calcular_precios_farmacia_detallado, calcularRaw, parseEscala_0_3]
  simp only [calcularRawCore]
  norm_num

/-- Unrounded evaluation at the negative scale string `"-5+10"`. -/
theorem calcularRaw_neg_scale : calcularRaw 1 0 "-5+10" 0 = some
    { costo_con_impuesto := 1, costo_real := -1, unidades_pagadas := -5,
      unidades_recibidas := 5, precio_base := -4 / 3, precio_publico := -4 / 3,
      precio_final_cliente := -4 / 3, margen_final := 25,
      utilidad_por_unidad := -1 / 3, porcentaje_markup := 100 / 3 } := by
  rw [calcularRaw, parseEscala_neg5_10]
  simp only [calcularRawCore]
  norm_num

/-- C10: the scale string `"-5+10"` parses as floats and is accepted
rather than treated as a parse failure: units paid is `-5`, units
received is `5`, and the real unit cost, base price and public price are
all negative. -/
theorem negative_scale_accepted :
    parseEscala "-5+10" = some (-5, 5) ∧
    calcular_precios_farmacia_detallado 1 0 "-5+10" 0 = some
      { costo_unitario_original := 1, impuesto_aplicado := 0, costo_con_impuesto := 1,
        escala_aplicada := "-5+10", unidades_pagadas := -5, unidades_recibidas := 5,
        costo_real := -1, precio_base := -1.33, precio_publico := -1.33,
        descuento_aplicado := 0, precio_final_cliente := -1.33,
        margen_utilidad_final := 25, utilidad_por_unidad := -0.33,
        porcentaje_markup := 33.33, margen_garantizado := true } := by
  refine ⟨parseEscala_neg5_10, ?_⟩
  have e1 : round2 (1 : ℚ) = 1 := by norm_num [round2, roundHalfEven]
  have e2 : round2 (-1 : ℚ) = -1 := by norm_num [round2, roundHalfEven]
  have e3 : round2 (-4 / 3 : ℚ) = -1.33 := by norm_num [round2, roundHalfEven]
  have e4 : round2 (-1 / 3 : ℚ) = -0.33 := by norm_num [round2, roundHalfEven]
  have e5 : round2 (100 / 3 : ℚ) = 33.33 := by norm_num [round2, roundHalfEven]
  have e6 : round2 (25 : ℚ) = 25 := by norm_num [round2, roundHalfEven]
  have e7 : decide ((25 : ℚ) ≥ 24.5) = true := by norm_num
  simp only [calcular_precios_farmacia_detallado]
  rw [calcularRaw_neg_scale]
  simp [e1, e2, e3, e4, e5, e6, e7]

/-- C2 (code_bug evaluation): `discount_percent = 100` passes the
endpoint validation (only `> 100` is rejected) and then the
`public_price` formula divides by zero: the call ends in an uncaught
exception, not in an explicit rejection or clamp. -/
theorem discount100_not_rejected :
    calcular_precios_detallado 1 0 "sin_escala" 100 = ApiResult.ok none := by
  simp only [calcular_precios_detallado]
  rw [if_neg (by norm_num), if_neg (by norm_num), if_neg (by norm_num)]
  simp only [calcular_precios_farmacia_detallado, calcularRaw, parseEscala_sin_escala]
  simp only [calcularRawCore]
  norm_num

/-- C1 (counterexample): the input `unit_cost=2, tax=0,
scale="0+5", discount=0` is valid under the claim's quantification
(positive cost, percentages in range, any purchase scale), yet the
function raises instead of returning a result with a guaranteed
margin. -/
theorem margen_garantizado_cex :
    calcular_precios_farmacia_detallado 2 0 "0+5" 0 = none := by
  have hp : parseEscala "0+5" = some (0, 5) := by
    simp [parseEscala, parseFloat, parseMantissa, splitOnChar, natOfDigits]
  simp only [calcular_precios_farmacia_detallado, calcularRaw, hp]
  simp only [calcularRawCore]
  norm_num

/-- C6 (counterexample): at `unit_cost=100, tax=15, scale="10+3",
discount=10` the returned rounded public price is 131.05 (the exact
value is 46000/351 = 131.0541…), not 131.06 as the spec scenario
states. -/
theorem concrete_scenario_cex :
    (calcular_precios_farmacia_detallado 100 15 "10+3" 10).map Resultado.precio_publico
      = some 131.05 ∧
    ¬((calcular_precios_farmacia_detallado 100 15 "10+3" 10).map Resultado.precio_publico
      = some 131.06) := by
  have e : round2 (46000 / 351 : ℚ) = 131.05 := by norm_num [round2, roundHalfEven]
  have h : (calcular_precios_farmacia_detallado 100 15 "10+3" 10).map Resultado.precio_publico
      = some 131.05 := by
    simp only [calcular_precios_farmacia_detallado]
    rw [calcularRaw_scenario]
    simp [e]
  refine ⟨h, ?_⟩
  rw [h]
  norm_num

/-- C6 (amended): the full evaluation at the spec scenario; every field
matches the spec's numbers except the rounded public price, which is
131.05 rather than 131.06. -/
theorem concrete_scenario_eval :
    calcular_precios_farmacia_detallado 100 15 "10+3" 10 = some
      { costo_unitario_original := 100, impuesto_aplicado := 15, costo_con_impuesto := 115,
        escala_aplicada := "10+3", unidades_pagadas := 10, unidades_recibidas := 13,
        costo_real := 88.46, precio_base := 117.95, precio_publico := 131.05,
        descuento_aplicado := 10, precio_final_cliente := 117.95,
        margen_utilidad_final := 25, utilidad_por_unidad := 29.49,
        porcentaje_markup := 33.33, margen_garantizado := true } := by
  have e1 : round2 (100 : ℚ) = 100 := by norm_num [round2, roundHalfEven]
  have e2 : round2 (115 : ℚ) = 115 := by norm_num [round2, roundHalfEven]
  have e3 : round2 (1150 / 13 : ℚ) = 88.46 := by norm_num [round2, roundHalfEven]
  have e4 : round2 (4600 / 39 : ℚ) = 117.95 := by norm_num [round2, roundHalfEven]
  have e5 : round2 (46000 / 351 : ℚ) = 131.05 := by norm_num [round2, roundHalfEven]
  have e6 : round2 (25 : ℚ) = 25 := by norm_num [round2, roundHalfEven]
  have e7 : round2 (1150 / 39 : ℚ) = 29.49 := by norm_num [round2, roundHalfEven]
  have e8 : round2 (100 / 3 : ℚ) = 33.33 := by norm_num [round2, roundHalfEven]
  have e9 : decide ((25 : ℚ) ≥ 24.5) = true := by norm_num
  simp only [calcular_precios_farmacia_detallado]
  rw [calcularRaw_scenario]
  simp [e1, e2, e3, e4, e5, e6, e7, e8, e9]

/-- C1 (amended): for every valid input (`unit_cost > 0`, tax and
discount percentages in range, discount below 100) on which the
computation completes at all — the purchase scale not making the real
unit cost zero — the unrounded final margin is at least 24.5 (indeed
exactly 25) and the returned `margen_garantizado` flag is true. -/
theorem margen_garantizado_of_completes
    (cu imp desc : ℚ) (esc : String)
    (hcu : 0 < cu) (himp0 : 0 ≤ imp) (himp1 : imp ≤ 100)
    (hd0 : 0 ≤ desc) (hd1 : desc < 100)
    (hsome : calcularRaw cu imp esc desc ≠ none) :
    ∃ raw res, calcularRaw cu imp esc desc = some raw ∧
      (24.5 : ℚ) ≤ raw.margen_final ∧
      calcular_precios_farmacia_detallado cu imp esc desc = some res ∧
      res.margen_garantizado = true := by
  obtain ⟨raw, hraw⟩ := Option.ne_none_iff_exists'.mp hsome
  have hm : raw.margen_final = 25 := margen_final_eq_25 hd0 hraw
  have hmap : ∃ res, calcular_precios_farmacia_detallado cu imp esc desc = some res ∧
      res.margen_garantizado = decide (raw.margen_final ≥ (24.5 : ℚ)) := by
    simp only [calcular_precios_farmacia_detallado]
    rw [hraw]
    exact ⟨_, rfl, rfl⟩
  obtain ⟨res, hres, hflag⟩ := hmap
  exact ⟨raw, res, hraw, by rw [hm]; norm_num, hres, by rw [hflag, hm]; norm_num⟩

/-- C1 witness: the amended guarantee instantiated at the concrete
scenario input. -/
theorem margen_garantizado_of_completes_witness :
    ∃ raw res, calcularRaw 100 15 "10+3" 10 = some raw ∧
      (24.5 : ℚ) ≤ raw.margen_final ∧
      calcular_precios_farmacia_detallado 100 15 "10+3" 10 = some res ∧
      res.margen_garantizado = true :=
  margen_garantizado_of_completes 100 15 10 "10+3" (by norm_num) (by norm_num)
    (by norm_num) (by norm_num) (by norm_num) (by simp [calcularRaw_scenario])

/-- C7: with a zero discount, whenever the computation returns at all,
the returned (rounded) final margin percentage differs from 25 by at
most 0.01 — it is in fact exactly 25. -/
theorem zero_discount_margin (cu imp : ℚ) (esc : String)
    (hsome : calcularRaw cu imp esc 0 ≠ none) :
    ∃ res, calcular_precios_farmacia_detallado cu imp esc 0 = some res ∧
      |res.margen_utilidad_final - 25| ≤ 0.01 := by
  obtain ⟨raw, hraw⟩ := Option.ne_none_iff_exists'.mp hsome
  have hm : raw.margen_final = 25 := margen_final_eq_25 le_rfl hraw
  have e6 : round2 (25 : ℚ) = 25 := by norm_num [round2, roundHalfEven]
  have hmap : ∃ res, calcular_precios_farmacia_detallado cu imp esc 0 = some res ∧
      res.margen_utilidad_final = round2 raw.margen_final := by
    simp only [calcular_precios_farmacia_detallado]
    rw [hraw]
    exact ⟨_, rfl, rfl⟩
  obtain ⟨res, hres, hmarg⟩ := hmap
  refine ⟨res, hres, ?_⟩
  rw [hmarg, hm, e6]
  norm_num

/-- C7 witness: the zero-discount margin bound at the spec's second
concrete scenario. -/
theorem zero_discount_margin_witness :
    ∃ res, calcular_precios_farmacia_detallado 50 0 "sin_escala" 0 = some res ∧
      |res.margen_utilidad_final - 25| ≤ 0.01 :=
  zero_discount_margin 50 0 "sin_escala" (by simp [calcularRaw_simple])

/-- C3: whenever the function returns, its unrounded price fields are
exactly the spec §4.1 formulas in order — cost with tax, real unit cost
from the parsed promotion, base price, public price (higher sticker
price when a discount applies), final client price — with the margin
target fixed at 0.25. -/
theorem formulas_refine_spec (cu imp desc : ℚ) (esc : String)
    (hsome : calcularRaw cu imp esc desc ≠ none) :
    ∃ r, calcularRaw cu imp esc desc = some r ∧
      ({ cost_with_tax := r.costo_con_impuesto, real_unit_cost := r.costo_real,
         base_price := r.precio_base, public_price := r.precio_publico,
         final_client_price := r.precio_final_cliente } : SpecPrices) =
        compute_pricing_spec cu imp
          ((parseEscala esc).map fun q => (q.1, q.2 - q.1)) desc (1 / 4) := by
  obtain ⟨r, hraw⟩ := Option.ne_none_iff_exists'.mp hsome
  obtain ⟨h1, h2, -, -, h5, h6, h7, -, -, -, -, -, -⟩ := calcularRawCore_inv hraw
  refine ⟨r, hraw, ?_⟩
  rcases hp : parseEscala esc with - | ⟨c, re⟩ <;>
    rw [hp] at h2 h5 h6 <;>
    simp only [costoRealOf] at h2 h5 h6 <;>
    simp only [compute_pricing_spec, Option.map_some', Option.map_none',
      SpecPrices.mk.injEq]
  · have hpp : r.precio_publico =
        if desc > 0 then cu * (1 + imp / 100) / ((1 - 1 / 4) * (1 - desc / 100))
        else cu * (1 + imp / 100) / (1 - 1 / 4) := by
      rw [h6]
      norm_num
    refine ⟨h1, h2, by rw [h5]; norm_num, hpp, by rw [h7, hpp]⟩
  · have hre : c + (re - c) = re := by ring
    have hpp : r.precio_publico =
        if desc > 0 then
          cu * (1 + imp / 100) * c / (c + (re - c)) / ((1 - 1 / 4) * (1 - desc / 100))
        else cu * (1 + imp / 100) * c / (c + (re - c)) / (1 - 1 / 4) := by
      rw [h6, hre]
      norm_num
    exact ⟨h1, by rw [h2, hre], by rw [h5, hre]; norm_num, hpp, by rw [h7, hpp]⟩

/-- C3 witness: the refinement at the concrete scenario input. -/
theorem formulas_refine_spec_witness :
    ∃ r, calcularRaw 100 15 "10+3" 10 = some r ∧
      ({ cost_with_tax := r.costo_con_impuesto, real_unit_cost := r.costo_real,
         base_price := r.precio_base, public_price := r.precio_publico,
         final_client_price := r.precio_final_cliente } : SpecPrices) =
        compute_pricing_spec 100 15
          ((parseEscala "10+3").map fun q => (q.1, q.2 - q.1)) 10 (1 / 4) :=
  formulas_refine_spec 100 15 10 "10+3" (by simp [calcularRaw_scenario])

/-- C4: scale parsing maps `"10+3"` to 13 received units, `"5+1"` to 6,
`"20+5"` to 25, and the sentinel or any string the float parser rejects
to `units_paid = units_received = 1`; on parse failure the call still
returns a result (for otherwise valid inputs) instead of failing. -/
theorem scale_parsing_spec :
    ((calcular_precios_farmacia_detallado 100 0 "10+3" 0).map Resultado.unidades_recibidas
      = some 13) ∧
    ((calcular_precios_farmacia_detallado 100 0 "5+1" 0).map Resultado.unidades_recibidas
      = some 6) ∧
    ((calcular_precios_farmacia_detallado 100 0 "20+5" 0).map Resultado.unidades_recibidas
      = some 25) ∧
    ((calcular_precios_farmacia_detallado 100 0 "sin_escala" 0).map Resultado.unidades_recibidas
      = some 1) ∧
    parseEscala "abc" = none ∧
    parseEscala "1+2+3" = none ∧
    (∀ (s : String) (cu imp desc : ℚ), parseEscala s = none →
      0 < cu → 0 ≤ imp → 0 ≤ desc → desc < 100 →
      ∃ res, calcular_precios_farmacia_detallado cu imp s desc = some res ∧
        res.unidades_pagadas = 1 ∧ res.unidades_recibidas = 1) := by
  refine ⟨?_, ?_, ?_, ?_, ?_, ?_, ?_⟩
  · simp only [calcular_precios_farmacia_detallado, calcularRaw, parseEscala_10_3]
    simp only [calcularRawCore]
    norm_num
  · simp only [calcular_precios_farmacia_detallado, calcularRaw, parseEscala_5_1]
    simp only [calcularRawCore]
    norm_num
  · simp only [calcular_precios_farmacia_detallado, calcularRaw, parseEscala_20_5]
    simp only [calcularRawCore]
    norm_num
  · simp only [calcular_precios_farmacia_detallado, calcularRaw, parseEscala_sin_escala]
    simp only [calcularRawCore]
    norm_num
  · simp [parseEscala]
  · simp [parseEscala, parseFloat, parseMantissa, splitOnChar, natOfDigits]
  · intro s cu imp desc hp hcu himp hd0 hd1
    have hcr : costoRealOf cu imp (parseEscala s) ≠ 0 := by
      rw [hp]
      simp only [costoRealOf]
      have hpos : (0 : ℚ) < 1 + imp / 100 := by
        have : (0 : ℚ) ≤ imp / 100 := by positivity
        linarith
      exact (mul_pos hcu hpos).ne'
    obtain ⟨raw, hraw⟩ := calcularRawCore_isSome hd0 hd1 hcr
    obtain ⟨-, -, hu1, hu2, -, -, -, -, -, -, -, -, -⟩ := calcularRawCore_inv hraw
    rw [hp] at hu1 hu2
    simp only [Option.getD_none] at hu1 hu2
    have hmap : ∃ res, calcular_precios_farmacia_detallado cu imp s desc = some res ∧
        res.unidades_pagadas = raw.unidades_pagadas ∧
        res.unidades_recibidas = raw.unidades_recibidas := by
      simp only [calcular_precios_farmacia_detallado, calcularRaw]
      rw [hraw]
      exact ⟨_, rfl, rfl, rfl⟩
    obtain ⟨res, hres, hru1, hru2⟩ := hmap
    exact ⟨res, hres, by rw [hru1, hu1], by rw [hru2, hu2]⟩

/-- C4 witness: the fallback applied to the malformed string `"abc"`. -/
theorem scale_parsing_spec_witness :
    ∃ res, calcular_precios_farmacia_detallado 1 0 "abc" 0 = some res ∧
      res.unidades_pagadas = 1 ∧ res.unidades_recibidas = 1 :=
  scale_parsing_spec.2.2.2.2.2.2 "abc" 1 0 0 scale_parsing_spec.2.2.2.2.1
    (by norm_num) (by norm_num) (by norm_num) (by norm_num)

/-- C5: the endpoint answers with a client error exactly when
`unit_cost ≤ 0`, or the discount or tax percentage is outside
`[0, 100]`; on every other numeric input the validation passes and the
endpoint proceeds to the price computation. -/
theorem validation_error_iff (cu imp desc : ℚ) (esc : String) :
    ((∃ msg, calcular_precios_detallado cu imp esc desc = ApiResult.invalidInput msg) ↔
      (cu ≤ 0 ∨ desc < 0 ∨ desc > 100 ∨ imp < 0 ∨ imp > 100)) ∧
    ((0 < cu ∧ 0 ≤ desc ∧ desc ≤ 100 ∧ 0 ≤ imp ∧ imp ≤ 100) →
      calcular_precios_detallado cu imp esc desc =
        ApiResult.ok (calcular_precios_farmacia_detallado cu imp esc desc)) := by
  constructor
  · constructor
    · rintro ⟨msg, hmsg⟩
      by_contra hcon
      push_neg at hcon
      obtain ⟨hcu, hd0, hd1, hi0, hi1⟩ := hcon
      simp only [calcular_precios_detallado] at hmsg
      rw [if_neg (not_le.mpr hcu),
        if_neg (by rw [not_or]; exact ⟨not_lt.mpr hd0, not_lt.mpr hd1⟩),
        if_neg (by rw [not_or]; exact ⟨not_lt.mpr hi0, not_lt.mpr hi1⟩)] at hmsg
      exact ApiResult.noConfusion hmsg
    · intro hor
      simp only [calcular_precios_detallado]
      split_ifs with a b c
      · exact ⟨_, rfl⟩
      · exact ⟨_, rfl⟩
      · exact ⟨_, rfl⟩
      · exfalso
        rcases hor with h | h | h | h | h
        · exact a h
        · exact b (Or.inl h)
        · exact b (Or.inr h)
        · exact c (Or.inl h)
        · exact c (Or.inr h)
  · rintro ⟨hcu, hd0, hd1, hi0, hi1⟩
    simp only [calcular_precios_detallado]
    rw [if_neg (not_le.mpr hcu),
      if_neg (by rw [not_or]; exact ⟨not_lt.mpr hd0, not_lt.mpr hd1⟩),
      if_neg (by rw [not_or]; exact ⟨not_lt.mpr hi0, not_lt.mpr hi1⟩)]

/-- C5 witness: a valid input passes validation and reaches the
computation. -/
theorem validation_error_iff_witness :
    calcular_precios_detallado 1 0 "sin_escala" 0 =
      ApiResult.ok (calcular_precios_farmacia_detallado 1 0 "sin_escala" 0) :=
  (validation_error_iff 1 0 0 "sin_escala").2 (by norm_num)

/-- C8 (counterexample): with the scale string `"-5+10"` held fixed and
valid unit costs 1 < 2, the computed real unit cost moves from -1 down
to -2 — strictly decreasing, not strictly increasing. -/
theorem monotonicity_cex :
    (calcularRaw 1 0 "-5+10" 0).map RawPrecios.costo_real = some (-1) ∧
    (calcularRaw 2 0 "-5+10" 0).map RawPrecios.costo_real = some (-2) ∧
    ¬((-1 : ℚ) < -2) := by
  refine ⟨?_, ?_, by norm_num⟩
  · rw [calcularRaw_neg_scale]
    rfl
  · rw [calcularRaw, parseEscala_neg5_10]
    simp only [calcularRawCore]
    norm_num

/-- C8 (amended): holding tax, scale and discount fixed, increasing the
unit cost strictly increases the unrounded real unit cost, base price
and public price, provided the scale either falls back to "no
promotion" or parses with positive paid and received units (as every
promotion inside the spec grammar with a positive buy count does). -/
theorem monotonicity_amended (cu1 cu2 imp desc : ℚ) (esc : String)
    (h1 : 0 < cu1) (h12 : cu1 < cu2) (himp : 0 ≤ imp)
    (hd0 : 0 ≤ desc) (hd1 : desc < 100)
    (hp : parseEscala esc = none ∨
      ∃ c re, parseEscala esc = some (c, re) ∧ 0 < c ∧ 0 < re) :
    ∃ r1 r2, calcularRaw cu1 imp esc desc = some r1 ∧
      calcularRaw cu2 imp esc desc = some r2 ∧
      r1.costo_real < r2.costo_real ∧ r1.precio_base < r2.precio_base ∧
      r1.precio_publico < r2.precio_publico := by
  have ht : (0 : ℚ) < 1 + imp / 100 := by
    have : (0 : ℚ) ≤ imp / 100 := by positivity
    linarith
  have hdiv : ∀ a b d : ℚ, 0 < d → a < b → a / d < b / d := by
    intro a b d hd hab
    rw [div_lt_div_iff hd hd]
    exact mul_lt_mul_of_pos_right hab hd
  have hkey : costoRealOf cu1 imp (parseEscala esc) < costoRealOf cu2 imp (parseEscala esc) ∧
      0 < costoRealOf cu1 imp (parseEscala esc) := by
    rcases hp with hp | ⟨c, re, hp, hc, hre⟩ <;> rw [hp] <;> simp only [costoRealOf]
    · exact ⟨mul_lt_mul_of_pos_right h12 ht, mul_pos h1 ht⟩
    · exact ⟨hdiv _ _ _ hre
          (mul_lt_mul_of_pos_right (mul_lt_mul_of_pos_right h12 ht) hc),
        div_pos (mul_pos (mul_pos h1 ht) hc) hre⟩
  obtain ⟨hlt, hpos1⟩ := hkey
  have hpos2 := hpos1.trans hlt
  obtain ⟨r1, hr1⟩ := calcularRawCore_isSome hd0 hd1 hpos1.ne'
  obtain ⟨r2, hr2⟩ := calcularRawCore_isSome hd0 hd1 hpos2.ne'
  obtain ⟨-, hc1, -, -, hb1, hpp1, -, -, -, -, -, -, -⟩ := calcularRawCore_inv hr1
  obtain ⟨-, hc2, -, -, hb2, hpp2, -, -, -, -, -, -, -⟩ := calcularRawCore_inv hr2
  refine ⟨r1, r2, hr1, hr2, ?_, ?_, ?_⟩
  · rw [hc1, hc2]
    exact hlt
  · rw [hb1, hb2]
    exact hdiv _ _ _ (by norm_num) hlt
  · rw [hpp1, hpp2]
    by_cases hd : desc > 0
    · rw [if_pos hd, if_pos hd]
      refine hdiv _ _ _ ?_ hlt
      have hk : (0 : ℚ) < 1 - desc / 100 := by linarith
      exact mul_pos (by norm_num) hk
    · rw [if_neg hd, if_neg hd]
      exact hdiv _ _ _ (by norm_num) hlt

/-- C8 witness: strict monotonicity at unit costs 1 < 2 under the
promotion `"10+3"`. -/
theorem monotonicity_amended_witness :
    ∃ r1 r2, calcularRaw 1 0 "10+3" 0 = some r1 ∧
      calcularRaw 2 0 "10+3" 0 = some r2 ∧
      r1.costo_real < r2.costo_real ∧ r1.precio_base < r2.precio_base ∧
      r1.precio_publico < r2.precio_publico :=
  monotonicity_amended 1 2 0 0 "10+3" (by norm_num) (by norm_num) (by norm_num)
    (by norm_num) (by norm_num)
    (Or.inr ⟨10, 13, parseEscala_10_3, by norm_num, by norm_num⟩)

end PharmaPricing
